

import Mathlib

/-!
Verification of the ensembler and resilient-fetch subsystem of the
TradeableAssistant repository. The definitions below are shallow embeddings of
the TypeScript source: numbers are modelled as rationals, fallible operations
return Except values, and the outcome of each outbound network call is passed
in as an explicit parameter, since the network is outside the program.
-/

/-! ## JavaScript primitives -/

/-- Rounding as in JavaScript Math.round: the floor of x + 1/2. -/
def jround (q : ℚ) : ℤ := ⌊q + 1/2⌋

/-- Rounding to n decimal places, as in Number(x.toFixed(n)), for the exact
decimal values arising in this development. -/
def toFixedQ (n : ℕ) (q : ℚ) : ℚ := (jround (q * 10 ^ n) : ℚ) / 10 ^ n

/-- Whether the character list s starts with the character list pat. -/
def charsStartWith : List Char → List Char → Bool
  | [], _ => true
  | _ :: _, [] => false
  | p :: ps, c :: cs => p == c && charsStartWith ps cs

/-- Whether pat occurs as a contiguous substring of a character list. -/
def charsContain (pat : List Char) : List Char → Bool
  | [] => charsStartWith pat []
  | c :: cs => charsStartWith pat (c :: cs) || charsContain pat cs

/-- Substring test, as in the JavaScript String.prototype.includes method used
by the retry classifier of fetchWithTimeout. -/
def includesStr (s pat : String) : Bool := charsContain pat.data s.data

/-! ## Sentiment data model

From src/shared (type SentimentLabel, interface SentimentResult restricted to
the fields the aggregators read) and src/server/api-clients.ts (interface
SentimentData). -/

/-- The three sentiment labels produced by the analyzers. -/
inductive SentimentLabel
  | positive
  | negative
  | neutral
deriving DecidableEq

/-- One sentiment verdict: a label plus a confidence score. -/
structure SentimentResultT where
  sentiment : SentimentLabel
  confidence : ℚ
deriving DecidableEq

/-- Aggregate sentiment row returned by SentimentClient: percentage breakdown
plus a market mood string (bullish, bearish or neutral). -/
structure SentimentData where
  positive : ℤ
  neutral : ℤ
  negative : ℤ
  mood : String
deriving DecidableEq

namespace SentimentClient

/-- Embeds the aggregation step of SentimentClient.calculateOverallSentiment
from src/server/api-clients.ts. The source first maps the first ten articles
through analyzeMultipleTexts; the verdict list produced by that call is the
input here, and the arithmetic after it is translated directly: label counts
via filter().length, average confidence, the 0.45 ratio gates combined with
the 0.6 confidence gate for the bullish and bearish moods, and Math.round on
the percentage fields. Division by zero in the rationals stands in for the
NaN arithmetic of the empty case, which no claim touches for this client. -/
def calculateOverallSentiment (results : List SentimentResultT) : SentimentData :=
  let total : ℚ := results.length
  let positive : ℚ := (results.filter (fun r => r.sentiment == SentimentLabel.positive)).length
  let neutral : ℚ := (results.filter (fun r => r.sentiment == SentimentLabel.neutral)).length
  let negative : ℚ := (results.filter (fun r => r.sentiment == SentimentLabel.negative)).length
  let avgConfidence : ℚ := (results.map (fun r => r.confidence)).sum / total
  let positiveRatio := positive / total
  let negativeRatio := negative / total
  let mood : String :=
    if positiveRatio > 0.45 ∧ avgConfidence > 0.6 then "bullish"
    else if negativeRatio > 0.45 ∧ avgConfidence > 0.6 then "bearish"
    else "neutral"
  { positive := jround (positiveRatio * 100)
    neutral := jround ((neutral / total) * 100)
    negative := jround (negativeRatio * 100)
    mood := mood }

end SentimentClient

namespace SentimentUtils

/-- Percentage triple inside the breakdown of the shared aggregator. -/
structure Percentages where
  positive : ℚ
  negative : ℚ
  neutral : ℚ
deriving DecidableEq

/-- Per-label counts, percentages and average confidence of one aggregation. -/
structure SentimentBreakdown where
  positive : ℕ
  negative : ℕ
  neutral : ℕ
  total : ℕ
  percentages : Percentages
  averageConfidence : ℚ
deriving DecidableEq

/-- Result of the shared calculateOverallSentiment: an overall label, a
derived confidence and the full breakdown. -/
structure OverallSentiment where
  sentiment : SentimentLabel
  confidence : ℚ
  breakdown : SentimentBreakdown
deriving DecidableEq

/-- Embeds calculateOverallSentiment of the shared sentiment module
(src/unnamed/part_000, lines 557 onward): empty input short-circuits to a
neutral verdict with confidence 0.5 and an all-zero breakdown; otherwise the
label counts, two-decimal percentages, three-decimal average confidence and
the four-branch decision chain are translated directly, with Math.abs as the
rational absolute value. -/
def calculateOverallSentiment (results : List SentimentResultT) : OverallSentiment :=
  if results.length = 0 then
    { sentiment := SentimentLabel.neutral
      confidence := 0.5
      breakdown :=
        { positive := 0, negative := 0, neutral := 0, total := 0
          percentages := { positive := 0, negative := 0, neutral := 0 }
          averageConfidence := 0 } }
  else
    let total : ℕ := results.length
    let pos : ℕ := (results.filter (fun r => r.sentiment == SentimentLabel.positive)).length
    let neg : ℕ := (results.filter (fun r => r.sentiment == SentimentLabel.negative)).length
    let neut : ℕ := (results.filter (fun r => r.sentiment == SentimentLabel.neutral)).length
    let totalWeightedScore : ℚ := (results.map (fun r => r.confidence)).sum
    let posPercent : ℚ := toFixedQ 2 ((pos : ℚ) / total * 100)
    let negPercent : ℚ := toFixedQ 2 ((neg : ℚ) / total * 100)
    let neutPercent : ℚ := toFixedQ 2 ((neut : ℚ) / total * 100)
    let averageConfidence : ℚ := toFixedQ 3 (totalWeightedScore / total)
    let sc : SentimentLabel × ℚ :=
      if posPercent > 50 ∧ posPercent > negPercent + 15 then
        (SentimentLabel.positive,
         min 0.95 (0.6 + posPercent / 100 * 0.3 + averageConfidence * 0.1))
      else if negPercent > 50 ∧ negPercent > posPercent + 15 then
        (SentimentLabel.negative,
         min 0.95 (0.6 + negPercent / 100 * 0.3 + averageConfidence * 0.1))
      else if neutPercent > 60 ∨ |posPercent - negPercent| < 10 then
        (SentimentLabel.neutral, min 0.85 (0.5 + averageConfidence * 0.3))
      else if posPercent > negPercent then
        (SentimentLabel.positive, min 0.8 (0.5 + |posPercent - negPercent| / 100 * 0.3))
      else
        (SentimentLabel.negative, min 0.8 (0.5 + |posPercent - negPercent| / 100 * 0.3))
    { sentiment := sc.1
      confidence := toFixedQ 3 sc.2
      breakdown :=
        { positive := pos, negative := neg, neutral := neut, total := total
          percentages :=
            { positive := posPercent, negative := negPercent, neutral := neutPercent }
          averageConfidence := averageConfidence } }

end SentimentUtils

/-- Ten verdicts split five positive and five negative, every confidence 0.8. -/
def fiveFiveHighConf : List SentimentResultT :=
  [⟨SentimentLabel.positive, 0.8⟩, ⟨SentimentLabel.positive, 0.8⟩,
   ⟨SentimentLabel.positive, 0.8⟩, ⟨SentimentLabel.positive, 0.8⟩,
   ⟨SentimentLabel.positive, 0.8⟩, ⟨SentimentLabel.negative, 0.8⟩,
   ⟨SentimentLabel.negative, 0.8⟩, ⟨SentimentLabel.negative, 0.8⟩,
   ⟨SentimentLabel.negative, 0.8⟩, ⟨SentimentLabel.negative, 0.8⟩]

/-- Ten verdicts split seven positive and three negative, every confidence
0.8, so the total confidence is 8. -/
def sevenThreeHighConf : List SentimentResultT :=
  [⟨SentimentLabel.positive, 0.8⟩, ⟨SentimentLabel.positive, 0.8⟩,
   ⟨SentimentLabel.positive, 0.8⟩, ⟨SentimentLabel.positive, 0.8⟩,
   ⟨SentimentLabel.positive, 0.8⟩, ⟨SentimentLabel.positive, 0.8⟩,
   ⟨SentimentLabel.positive, 0.8⟩, ⟨SentimentLabel.negative, 0.8⟩,
   ⟨SentimentLabel.negative, 0.8⟩, ⟨SentimentLabel.negative, 0.8⟩]

/-- Ten verdicts split five positive and five negative, every confidence 0.5. -/
def fiveFiveLowConf : List SentimentResultT :=
  [⟨SentimentLabel.positive, 0.5⟩, ⟨SentimentLabel.positive, 0.5⟩,
   ⟨SentimentLabel.positive, 0.5⟩, ⟨SentimentLabel.positive, 0.5⟩,
   ⟨SentimentLabel.positive, 0.5⟩, ⟨SentimentLabel.negative, 0.5⟩,
   ⟨SentimentLabel.negative, 0.5⟩, ⟨SentimentLabel.negative, 0.5⟩,
   ⟨SentimentLabel.negative, 0.5⟩, ⟨SentimentLabel.negative, 0.5⟩]

/-- One model backend answer as MultiModelAIService shapes it: data holds the
generated text. -/
structure ModelResponse where
  source : String
  confidence : ℚ
  data : String
  processingTime : ℤ
deriving DecidableEq

/-- The blended answer MultiModelAIService returns. -/
structure EnsembleResponse where
  finalResponse : String
  modelContributions : List ModelResponse
  consensusScore : ℚ
  totalProcessingTime : ℤ
  methodology : String
deriving DecidableEq

/-- The enabled-source switches and the optional weighting strategy of one
ensemble call. -/
structure EnsembleOptions where
  useGemini : Bool
  useFinancialBert : Bool
  useCryptoBert : Bool
  useNewsAnalysis : Bool
  weightingStrategy : Option String
deriving DecidableEq

namespace MultiModelAIService

/-- The canned apology used when every model source fails. -/
def fallbackMessage : String :=
  "I\x27m having trouble connecting to the AI models right now. Please check your API keys and try again. In the meantime, consider checking market data directly from exchanges or financial news sources."

/-- The synthetic fallback contribution pushed when no model responded. -/
def fallbackResponse (elapsed : ℤ) : ModelResponse :=
  { source := "Fallback", confidence := 0.5, data := fallbackMessage
    processingTime := elapsed }

/-- The per-source catch wrappers followed by the null filter: each enabled
source contributes its settled outcome (error mapped to null), and the null
entries are dropped. -/
def collectResponses (options : EnsembleOptions)
    (gemini financialBert cryptoBert newsAnalysis : Except String ModelResponse) :
    List ModelResponse :=
  ((if options.useGemini then [gemini.toOption] else []) ++
   (if options.useFinancialBert then [financialBert.toOption] else []) ++
   (if options.useCryptoBert then [cryptoBert.toOption] else []) ++
   (if options.useNewsAnalysis then [newsAnalysis.toOption] else [])).filterMap id

/-- The reduce that picks the contribution of highest confidence, keeping the
earlier one on ties, while remembering its position in the list. -/
def reduceBestIdx : ℕ × ModelResponse → List (ℕ × ModelResponse) → ℕ × ModelResponse
  | best, [] => best
  | best, cur :: rest =>
    reduceBestIdx (if best.2.confidence < cur.2.confidence then cur else best) rest

/-- The consensus and final-text computation of generateEnsembleResponse, from
the point where the responses list (fallback already included) is fixed. A
single response is returned verbatim with its own confidence. Otherwise the
confidence strategy concatenates the primary response with the remaining ones
under an additional-analysis header and averages the confidences, and the
equal strategy concatenates every response with its source label and averages
with a cap of 1. The source filters the non-primary responses by object
identity; positions stand in for identity here. -/
def combineEnsemble (strategy : Option String) (responses : List ModelResponse) :
    String × ℚ :=
  match responses with
  | [r] => (r.data, r.confidence)
  | _ =>
    if strategy = some "confidence" then
      let totalConfidence := (responses.map (fun r => r.confidence)).sum
      if 0 < totalConfidence then
        let primary :=
          match responses.enum with
          | [] => (0, fallbackResponse 0)
          | e :: rest => reduceBestIdx e rest
        ((primary.2.data ++ "\n\n--- Additional Analysis ---\n") ++
          String.join
            (((responses.enum.filter (fun q => q.1 ≠ primary.1)).map
              (fun q => "\n" ++ q.2.source ++ ": " ++ q.2.data))),
         totalConfidence / responses.length)
      else
        (String.intercalate "\n\n" (responses.map (fun r => r.source ++ ": " ++ r.data)),
         0.5)
    else
      (String.intercalate "\n\n" (responses.map (fun r => r.source ++ ": " ++ r.data)),
       if 0 < responses.length then
         min ((responses.map (fun r => r.confidence)).sum / responses.length) 1
       else 0)

/-- Embeds MultiModelAIService.generateEnsembleResponse: the settled outcomes
of the enabled sources are filtered, a synthetic fallback contribution is
pushed when none succeeded, and the final response, consensus score and
methodology are assembled. The elapsed arguments stand for the wall-clock
readings the source takes. -/
def generateEnsembleResponse (options : EnsembleOptions)
    (gemini financialBert cryptoBert newsAnalysis : Except String ModelResponse)
    (elapsed totalElapsed : ℤ) : EnsembleResponse :=
  let validResults := collectResponses options gemini financialBert cryptoBert newsAnalysis
  let responses := if validResults = [] then [fallbackResponse elapsed] else validResults
  let pair := combineEnsemble options.weightingStrategy responses
  { finalResponse := pair.1
    modelContributions := responses
    consensusScore := pair.2
    totalProcessingTime := totalElapsed
    methodology := options.weightingStrategy.getD "equal" }

end MultiModelAIService

namespace MultiModelService

/-- One model backend answer as the MultiModelService variant shapes it. -/
structure MSModelResponse where
  source : String
  response : String
  confidence : ℚ
  processingTime : ℤ
  strengths : Option (List String)
deriving DecidableEq

/-- One entry of the modelContributions list of the variant service. -/
structure MSContribution where
  source : String
  confidence : ℚ
  processingTime : ℤ
  strengths : Option (List String)
  response : String
deriving DecidableEq

/-- The blended answer of the variant service. -/
structure MSEnsembleResponse where
  finalResponse : String
  consensusScore : ℚ
  totalProcessingTime : ℤ
  modelContributions : List MSContribution
  methodology : String
deriving DecidableEq

/-- Enabled-source switches of the variant service; the weighting strategy is
a plain string there. -/
structure MSOptions where
  useGemini : Bool
  useFinancialBert : Bool
  useCryptoBert : Bool
  useNewsAnalysis : Bool
  weightingStrategy : String
deriving DecidableEq

/-- The reduce picking the response of highest confidence, earliest on ties. -/
def reduceBest : MSModelResponse → List MSModelResponse → MSModelResponse
  | best, [] => best
  | best, cur :: rest =>
    reduceBest (if best.confidence < cur.confidence then cur else best) rest

/-- Embeds MultiModelService.combineResponses: the primary response, then the
responses of the other sources under an additional-insights header when any
exist, then the fixed disclaimer, appended unconditionally. -/
def combineResponses (primary : MSModelResponse) (all : List MSModelResponse) : String :=
  let otherInsights :=
    String.intercalate "\n\n"
      ((all.filter (fun r => r.source != primary.source)).map (fun r => r.response))
  (primary.response ++
    (if otherInsights ≠ "" then "\n\nAdditional Insights:\n" ++ otherInsights else "")) ++
    "\n\nThis is information, not financial advice."

/-- The settled outcomes of the enabled sources with the rejected ones
filtered out, as Promise.allSettled followed by the fulfilled filter
computes them in MultiModelService.generateEnsembleResponse. -/
def successfulResponsesOf (options : MSOptions)
    (gemini financialBert cryptoBert newsAnalysis : Except String MSModelResponse) :
    List MSModelResponse :=
  ((if options.useGemini then [gemini] else []) ++
   (if options.useFinancialBert then [financialBert] else []) ++
   (if options.useCryptoBert then [cryptoBert] else []) ++
   (if options.useNewsAnalysis then [newsAnalysis] else [])).filterMap Except.toOption

/-- Embeds MultiModelService.generateEnsembleResponse of src/unnamed/part_000:
when no enabled source succeeded the call throws the no-models error.
Otherwise the consensus is the mean confidence, the primary response follows
the weighting strategy with Gemini preferred by default, and combineResponses
assembles the final text. -/
def generateEnsembleResponse (options : MSOptions)
    (gemini financialBert cryptoBert newsAnalysis : Except String MSModelResponse)
    (totalElapsed : ℤ) : Except String MSEnsembleResponse :=
  match successfulResponsesOf options gemini financialBert cryptoBert newsAnalysis with
  | [] => Except.error "No models were able to generate a response"
  | r :: rest =>
    let successfulResponses := r :: rest
    let consensusScore :=
      ((successfulResponses.map (fun x => x.confidence)).sum : ℚ) /
        successfulResponses.length
    let primaryResponse :=
      if options.weightingStrategy = "confidence" then reduceBest r rest
      else
        match successfulResponses.find? (fun x => x.source == "Gemini") with
        | some p => p
        | none => reduceBest r rest
    let finalResponse := combineResponses primaryResponse successfulResponses
    Except.ok
      { finalResponse := finalResponse
        consensusScore := consensusScore
        totalProcessingTime := totalElapsed
        modelContributions :=
          successfulResponses.map (fun x =>
            { source := x.source, confidence := x.confidence
              processingTime := x.processingTime, strengths := x.strengths
              response := x.response })
        methodology :=
          if options.weightingStrategy = "confidence" then "confidence-weighted-ensemble"
          else "primary-with-support" }

end MultiModelService

/-- A single concrete backend answer for the variant service. -/
def soloGeminiMS : MultiModelService.MSModelResponse :=
  { source := "Gemini", response := "BTC is consolidating.", confidence := 0.9
    processingTime := 5, strengths := none }

/-- A single concrete backend answer for MultiModelAIService. -/
def soloGemini : ModelResponse :=
  { source := "Gemini", confidence := 0.9, data := "BTC is consolidating."
    processingTime := 5 }

/-- Replacement of the first occurrence of pat inside s, as in the JavaScript
String.prototype.replace with a string pattern. -/
def replaceFirst (s pat rep : String) : String :=
  match s.splitOn pat with
  | x :: y :: rest => x ++ rep ++ String.intercalate pat (y :: rest)
  | _ => s

/-- The backoff of the rate-limited branch: 1000 times 2 to the attempt
index, capped at 10000 milliseconds. -/
def backoffRateLimit (i : ℕ) : ℕ := min (1000 * 2 ^ i) 10000

/-- The base of the generic backoff: 2 to the attempt index times 2000,
capped at 10000 milliseconds; jitter is added on top. -/
def backoffBase (i : ℕ) : ℕ := min (2 ^ i * 2000) 10000

/-- The alternative Binance hostnames tried on DNS failures. -/
def alternativeUrls : List String :=
  ["api1.binance.com", "api2.binance.com", "api3.binance.com"]

deriving instance DecidableEq for Except

/-- What one fetchWithTimeout call did: how many fetch attempts ran, the
delays awaited between attempts, and the final outcome. -/
structure FetchTrace where
  attemptsMade : ℕ
  delays : List ℚ
  result : Except String String
deriving DecidableEq

/-- The retry loop of the first fetchWithTimeout (src/server/api-clients.ts,
lines 38 to 163), one constructor case per loop iteration; the fuel argument
counts the iterations left, so the loop index is i and fuel + i = retries.
A successful attempt returns at once. A failed attempt is classified by
substring checks on its message exactly as in the source: the DNS branch
substitutes an alternative Binance host and waits one second, the 429 or 503
branch waits the capped exponential backoff and continues even on the final
attempt, the final attempt otherwise throws the specific timeout or service
error, and every other failure waits the jittered generic backoff. Falling
out of the loop yields the generic all-attempts-failed error. -/
def fetchGo (hostname : String) (attempt : ℕ → Except String String)
    (jitter : ℕ → ℚ) (retries : ℕ) : ℕ → ℕ → String → FetchTrace
  | 0, _, _ => { attemptsMade := 0, delays := [], result := Except.error "All fetch attempts failed" }
  | fuel + 1, i, url =>
    let currentTimeout : ℕ := min (10000 * (i + 1)) 20000
    match attempt i with
    | Except.ok payload => { attemptsMade := 1, delays := [], result := Except.ok payload }
    | Except.error msg =>
      if (includesStr msg "ENOTFOUND" || includesStr msg "getaddrinfo") &&
          (hostname == "api.binance.com") && decide (i < retries - 1) then
        let altUrl := alternativeUrls.getD (i % alternativeUrls.length) ""
        let t := fetchGo hostname attempt jitter retries fuel (i + 1)
          (replaceFirst url hostname altUrl)
        { attemptsMade := t.attemptsMade + 1, delays := 1000 :: t.delays, result := t.result }
      else if includesStr msg "429" || includesStr msg "503" then
        let t := fetchGo hostname attempt jitter retries fuel (i + 1) url
        { attemptsMade := t.attemptsMade + 1
          delays := (backoffRateLimit i : ℚ) :: t.delays, result := t.result }
      else if i = retries - 1 then
        if includesStr msg "timeout" then
          { attemptsMade := 1, delays := []
            result := Except.error ("Service timeout: " ++ url ++
              " is not responding within " ++ toString currentTimeout ++ "ms") }
        else
          { attemptsMade := 1, delays := []
            result := Except.error ("Service error: " ++ msg) }
      else
        let t := fetchGo hostname attempt jitter retries fuel (i + 1) url
        { attemptsMade := t.attemptsMade + 1
          delays := ((backoffBase i : ℚ) + jitter i) :: t.delays, result := t.result }

/-- The first fetchWithTimeout of src/server/api-clients.ts: run the retry
loop from attempt index zero with as much fuel as retries. -/
def fetchWithTimeout (url hostname : String) (attempt : ℕ → Except String String)
    (jitter : ℕ → ℚ) (retries : ℕ) : FetchTrace :=
  fetchGo hostname attempt jitter retries retries 0 url

/-- The retry loop of the second fetchWithTimeout (src/server/api-clients.ts,
lines 1297 to 1377): no DNS or rate-limit branches; the final attempt throws
the specific timeout or service error and every earlier failure waits the
jittered generic backoff. -/
def fetchGoV2 (attempt : ℕ → Except String String) (jitter : ℕ → ℚ)
    (retries : ℕ) : ℕ → ℕ → String → FetchTrace
  | 0, _, _ => { attemptsMade := 0, delays := [], result := Except.error "All fetch attempts failed" }
  | fuel + 1, i, url =>
    match attempt i with
    | Except.ok payload => { attemptsMade := 1, delays := [], result := Except.ok payload }
    | Except.error msg =>
      if i = retries - 1 then
        if includesStr msg "timeout" then
          { attemptsMade := 1, delays := []
            result := Except.error ("Service timeout: " ++ url ++ " is not responding in time") }
        else
          { attemptsMade := 1, delays := []
            result := Except.error ("Service error: " ++ msg) }
      else
        let t := fetchGoV2 attempt jitter retries fuel (i + 1) url
        { attemptsMade := t.attemptsMade + 1
          delays := ((backoffBase i : ℚ) + jitter i) :: t.delays, result := t.result }

/-- The second fetchWithTimeout of src/server/api-clients.ts. -/
def fetchWithTimeoutV2 (url : String) (attempt : ℕ → Except String String)
    (jitter : ℕ → ℚ) (retries : ℕ) : FetchTrace :=
  fetchGoV2 attempt jitter retries retries 0 url

/-- One market row as the Binance adapter returns it (interface
CryptoMarketData). -/
structure CryptoMarketData where
  symbol : String
  name : String
  price : String
  priceChange24h : String
  priceChangePercent24h : String
  volume24h : String
  marketCap : String
deriving DecidableEq

/-- Aggregate market statistics (interface MarketStats). -/
structure MarketStats where
  totalMarketCap : String
  totalVolume24h : String
  btcDominance : String
  fearGreedIndex : ℤ
deriving DecidableEq

/-- One news row as the news adapter returns it (interface
NewsArticleResponse); the publication date is modelled as an integer epoch. -/
structure NewsArticleResponse where
  description : String
  title : String
  content : String
  source : String
  imageUrl : Option String
  publishedAt : ℤ
  url : String
deriving DecidableEq

namespace BinanceClient

/-- The static fallback list returned by getTopCryptocurrencies when the
Binance call fails; the source literal holds this single Bitcoin row. -/
def fallbackTopCryptocurrencies : List CryptoMarketData :=
  [{ symbol := "BTC", name := "Bitcoin", price := "94250.00"
     priceChange24h := "1200.00", priceChangePercent24h := "1.29"
     volume24h := "28500000000", marketCap := "1850000000000" }]

/-- Embeds BinanceClient.getTopCryptocurrencies: the successful path returns
the top rows computed from the ticker payload, and any failure is caught and
replaced by the static fallback list; the method never fails its caller. -/
def getTopCryptocurrencies (attempt : Except String (List CryptoMarketData)) :
    List CryptoMarketData :=
  match attempt with
  | Except.ok topCryptos => topCryptos
  | Except.error _ => fallbackTopCryptocurrencies

/-- The sample statistics returned in development mode before any fetch. -/
def sampleMarketStats : MarketStats :=
  { totalMarketCap := "$3.4T", totalVolume24h := "$125.8B"
    btcDominance := "56.2%", fearGreedIndex := 65 }

/-- The static fallback statistics returned when the Binance call fails. -/
def fallbackMarketStats : MarketStats :=
  { totalMarketCap := "$3.4T", totalVolume24h := "$125.8B"
    btcDominance := "56.2%", fearGreedIndex := 65 }

/-- Embeds BinanceClient.getMarketStats: development mode short-circuits to
the sample statistics, the successful path returns the computed statistics,
and any failure is caught and replaced by the static fallback; the method
never fails its caller. -/
def getMarketStats (nodeEnv : String) (attempt : Except String MarketStats) :
    MarketStats :=
  if nodeEnv = "development" then sampleMarketStats
  else
    match attempt with
    | Except.ok stats => stats
    | Except.error _ => fallbackMarketStats

end BinanceClient

namespace NewsClient

/-- Embeds NewsClient.getCryptoNews: the successful path returns the mapped
article list, and any failure is caught and rethrown as the fixed
failed-to-fetch error, so this adapter fails its caller instead of falling
back. -/
def getCryptoNews (attempt : Except String (List NewsArticleResponse)) :
    Except String (List NewsArticleResponse) :=
  match attempt with
  | Except.ok articles => Except.ok articles
  | Except.error _ => Except.error "Failed to fetch news data"

end NewsClient

namespace SentimentClient

/-- Embeds SentimentClient.analyzeSentiment: the underlying analyzer outcome
is passed through, and an error is logged and rethrown unchanged, so this
adapter fails its caller instead of falling back. -/
def analyzeSentiment (result : Except String SentimentResultT) :
    Except String SentimentResultT :=
  match result with
  | Except.ok r => Except.ok r
  | Except.error e => Except.error e

end SentimentClient

/-- Embeds assertApiKey: a missing value, the placeholder value or a value
shorter than eight characters is a startup configuration error. An absent
environment variable is none; the JavaScript falsiness of the empty string is
covered by the length test. -/
def assertApiKey (name : String) (value : Option String) : Except String Unit :=
  match value with
  | none => Except.error ("Environment variable " ++ name ++ " is missing or invalid.")
  | some v =>
    if v = "your_session_secret_here" ∨ v.length < 8 then
      Except.error ("Environment variable " ++ name ++ " is missing or invalid.")
    else Except.ok ()

/-- Modelled from the spec: the origin tag of a SourceResult, which signals
whether data is real-time or degraded. The source code has no counterpart of
this type; it exists here to state the tagging half of the fallback claim. -/
inductive Origin
  | live
  | fallback
deriving DecidableEq

/-! ## Claim theorems and supporting lemmas -/

/-- The three label filters of a verdict list partition it, so the neutral
count is determined by the length and the positive and negative counts. -/
lemma sentiment_count_partition (l : List SentimentResultT) :
    (l.filter (fun r => r.sentiment == SentimentLabel.positive)).length +
      (l.filter (fun r => r.sentiment == SentimentLabel.negative)).length +
      (l.filter (fun r => r.sentiment == SentimentLabel.neutral)).length = l.length := by
  induction l with
  | nil => rfl
  | cons a l ih =>
    cases h : a.sentiment <;> simp [List.filter_cons, h] <;> omega

/-- C4 counterexample: on an exact five-five positive-negative split whose
confidences average 0.8, SentimentClient.calculateOverallSentiment reports the
bullish mood, not the claimed neutral one: the positive ratio 0.5 clears the
0.45 gate and the average confidence 0.8 clears the 0.6 gate. -/
theorem C4_counterexample_five_five_bullish :
    (SentimentClient.calculateOverallSentiment fiveFiveHighConf).mood = "bullish" ∧
      (SentimentClient.calculateOverallSentiment fiveFiveHighConf).mood ≠ "neutral" := by
  have h : (SentimentClient.calculateOverallSentiment fiveFiveHighConf).mood = "bullish" := by
    simp +decide only [SentimentClient.calculateOverallSentiment, fiveFiveHighConf,
      List.filter_cons, List.filter_nil, List.map_cons, List.map_nil, List.sum_cons,
      List.sum_nil, List.length_cons, List.length_nil]
    norm_num
  exact ⟨h, by rw [h]; decide⟩

/-- The mood field of the SentimentClient aggregation, written out as the
two-gate decision the source computes; holds by unfolding the definition. -/
lemma sentimentClient_mood_def (results : List SentimentResultT) :
    (SentimentClient.calculateOverallSentiment results).mood =
      (if ((results.filter (fun r => r.sentiment == SentimentLabel.positive)).length : ℚ) /
            results.length > 0.45 ∧
            (results.map (fun r => r.confidence)).sum / results.length > 0.6 then "bullish"
       else if ((results.filter (fun r => r.sentiment == SentimentLabel.negative)).length : ℚ) /
            results.length > 0.45 ∧
            (results.map (fun r => r.confidence)).sum / results.length > 0.6 then "bearish"
       else "neutral") := rfl

/-- C4 amended: with ten verdicts of which seven are positive and three are
negative and total confidence 8 (average 0.8), the SentimentClient aggregation
yields the bullish mood. An exact five-five split yields the neutral mood only
when the average confidence does not clear the 0.6 gate, since the positive
ratio 0.5 already clears the 0.45 gate; and the label-valued aggregator of the
shared sentiment module yields the neutral label on every exact five-five
split of ten verdicts, whatever the confidences: the list u below carries no
confidence hypothesis at all. -/
theorem C4_amended_sentiment_thresholds
    (v w u : List SentimentResultT)
    (hv1 : v.length = 10)
    (hv2 : (v.filter (fun r => r.sentiment == SentimentLabel.positive)).length = 7)
    (hv3 : (v.filter (fun r => r.sentiment == SentimentLabel.negative)).length = 3)
    (hv4 : (v.map (fun r => r.confidence)).sum = 8)
    (hw1 : w.length = 10)
    (hw2 : (w.filter (fun r => r.sentiment == SentimentLabel.positive)).length = 5)
    (hw3 : (w.filter (fun r => r.sentiment == SentimentLabel.negative)).length = 5)
    (hw4 : (w.map (fun r => r.confidence)).sum ≤ 6)
    (hu1 : u.length = 10)
    (hu2 : (u.filter (fun r => r.sentiment == SentimentLabel.positive)).length = 5)
    (hu3 : (u.filter (fun r => r.sentiment == SentimentLabel.negative)).length = 5) :
    (SentimentClient.calculateOverallSentiment v).mood = "bullish" ∧
      (SentimentClient.calculateOverallSentiment w).mood = "neutral" ∧
      (SentimentUtils.calculateOverallSentiment u).sentiment = SentimentLabel.neutral := by
  have hneut : (u.filter (fun r => r.sentiment == SentimentLabel.neutral)).length = 0 := by
    have hp := sentiment_count_partition u
    rw [hu1, hu2, hu3] at hp
    omega
  refine ⟨?_, ?_, ?_⟩
  · rw [sentimentClient_mood_def, hv1, hv2, hv4]
    rw [if_pos]
    push_cast
    constructor <;> norm_num
  · rw [sentimentClient_mood_def, hw1, hw2, hw3]
    have hc : ¬ ((w.map (fun r => r.confidence)).sum / ((10 : ℕ) : ℚ) > 0.6) := by
      intro hgt
      rw [gt_iff_lt, lt_div_iff (by norm_num : (0 : ℚ) < ((10 : ℕ) : ℚ))] at hgt
      push_cast at hgt
      linarith
    rw [if_neg (fun hand => hc hand.2), if_neg (fun hand => hc hand.2)]
  · norm_num [SentimentUtils.calculateOverallSentiment, toFixedQ, jround,
      hu1, hu2, hu3, hneut]

/-- C4 witness: the amended statement applied to a concrete seven-three list
with confidence 0.8 everywhere, a concrete five-five list with confidence 0.5
everywhere, and, for the shared aggregator, the concrete five-five list with
confidence 0.8 everywhere: the high-confidence split on which the two
aggregators diverge. -/
theorem C4_amended_witness :
    (SentimentClient.calculateOverallSentiment sevenThreeHighConf).mood = "bullish" ∧
      (SentimentClient.calculateOverallSentiment fiveFiveLowConf).mood = "neutral" ∧
      (SentimentUtils.calculateOverallSentiment fiveFiveHighConf).sentiment =
        SentimentLabel.neutral :=
  C4_amended_sentiment_thresholds sevenThreeHighConf fiveFiveLowConf fiveFiveHighConf
    (by decide) (by decide) (by decide)
    (by simp [sevenThreeHighConf]; norm_num)
    (by decide) (by decide) (by decide)
    (by simp [fiveFiveLowConf]; norm_num)
    (by decide) (by decide) (by decide)

/-! ## Ensemble of model backends

MultiModelAIService is embedded from src/server/services/types.ts; the
MultiModelService variant from src/unnamed/part_000. The outcome of each
backend call is a parameter: Except.ok carries the ModelResponse the backend
produced, Except.error the message of the error it threw. -/

/-- A list of rationals that are all nonnegative has a nonnegative sum. -/
lemma rat_list_sum_nonneg {l : List ℚ} (h : ∀ x ∈ l, 0 ≤ x) : 0 ≤ l.sum := by
  induction l with
  | nil => simp
  | cons a l ih =>
    simp only [List.sum_cons]
    have ha := h a (List.mem_cons_self a l)
    have hl := ih (fun x hx => h x (List.mem_cons_of_mem a hx))
    linarith

/-- A list of rationals that are all at most one sums to at most the length. -/
lemma rat_list_sum_le_length {l : List ℚ} (h : ∀ x ∈ l, x ≤ 1) : l.sum ≤ (l.length : ℚ) := by
  induction l with
  | nil => simp
  | cons a l ih =>
    simp only [List.sum_cons, List.length_cons]
    have ha := h a (List.mem_cons_self a l)
    have hl := ih (fun x hx => h x (List.mem_cons_of_mem a hx))
    push_cast
    linarith

/-- When every enabled source settles to null, the collected response list is
empty. -/
lemma collectResponses_eq_nil {options : EnsembleOptions}
    {g f c n : Except String ModelResponse}
    (hg : options.useGemini = true → g.toOption = none)
    (hf : options.useFinancialBert = true → f.toOption = none)
    (hc : options.useCryptoBert = true → c.toOption = none)
    (hn : options.useNewsAnalysis = true → n.toOption = none) :
    MultiModelAIService.collectResponses options g f c n = [] := by
  unfold MultiModelAIService.collectResponses
  have e1 : (if options.useGemini then [g.toOption] else []) = []
      ∨ (if options.useGemini then [g.toOption] else []) = [none] := by
    cases hG : options.useGemini
    · exact Or.inl (by simp)
    · exact Or.inr (by simp [hg hG])
  have e2 : (if options.useFinancialBert then [f.toOption] else []) = []
      ∨ (if options.useFinancialBert then [f.toOption] else []) = [none] := by
    cases hF : options.useFinancialBert
    · exact Or.inl (by simp)
    · exact Or.inr (by simp [hf hF])
  have e3 : (if options.useCryptoBert then [c.toOption] else []) = []
      ∨ (if options.useCryptoBert then [c.toOption] else []) = [none] := by
    cases hC : options.useCryptoBert
    · exact Or.inl (by simp)
    · exact Or.inr (by simp [hc hC])
  have e4 : (if options.useNewsAnalysis then [n.toOption] else []) = []
      ∨ (if options.useNewsAnalysis then [n.toOption] else []) = [none] := by
    cases hN : options.useNewsAnalysis
    · exact Or.inl (by simp)
    · exact Or.inr (by simp [hn hN])
  rcases e1 with e1 | e1 <;> rcases e2 with e2 | e2 <;> rcases e3 with e3 | e3 <;>
    rcases e4 with e4 | e4 <;> rw [e1, e2, e3, e4] <;> rfl

/-- The consensus returned by combineEnsemble stays inside the unit interval
whenever the responses list is nonempty and every confidence in it is. -/
lemma combineEnsemble_score_bounds (strategy : Option String)
    (responses : List ModelResponse) (hne : responses ≠ [])
    (h : ∀ r ∈ responses, 0 ≤ r.confidence ∧ r.confidence ≤ 1) :
    0 ≤ (MultiModelAIService.combineEnsemble strategy responses).2 ∧
      (MultiModelAIService.combineEnsemble strategy responses).2 ≤ 1 := by
  have hsum0 : 0 ≤ (responses.map (fun r => r.confidence)).sum :=
    rat_list_sum_nonneg (by
      intro x hx
      rcases List.mem_map.mp hx with ⟨r, hr, hrx⟩
      exact hrx ▸ (h r hr).1)
  have hsum1 : (responses.map (fun r => r.confidence)).sum ≤ (responses.length : ℚ) := by
    have := rat_list_sum_le_length (l := responses.map (fun r => r.confidence)) (by
      intro x hx
      rcases List.mem_map.mp hx with ⟨r, hr, hrx⟩
      exact hrx ▸ (h r hr).2)
    simpa using this
  rcases responses with _ | ⟨r1, rest1⟩
  · exact absurd rfl hne
  rcases rest1 with _ | ⟨r2, rest⟩
  · simpa [MultiModelAIService.combineEnsemble] using h r1 (by simp)
  have hlen0 : 0 < (r1 :: r2 :: rest).length := by simp
  have hlenQ : (0 : ℚ) < ((r1 :: r2 :: rest).length : ℚ) := by exact_mod_cast hlen0
  simp only [MultiModelAIService.combineEnsemble]
  by_cases hs : strategy = some "confidence"
  · rw [if_pos hs]
    by_cases hpos : 0 < ((r1 :: r2 :: rest).map (fun r => r.confidence)).sum
    · rw [if_pos hpos]
      refine ⟨div_nonneg hsum0 hlenQ.le, ?_⟩
      rw [div_le_one hlenQ]
      exact hsum1
    · rw [if_neg hpos]
      norm_num
  · rw [if_neg hs, if_pos hlen0]
    exact ⟨le_min (div_nonneg hsum0 hlenQ.le) (by norm_num), min_le_right _ _⟩

/-- C1 counterexample: the MultiModelService variant of the ensemble
generator throws when every enabled source fails. With all four sources
enabled and each one failing, the call evaluates to the no-models error
rather than to any EnsembleResponse, refuting the claim that every ensemble
call degrades without throwing. -/
theorem C1_counterexample_variant_throws :
    MultiModelService.generateEnsembleResponse
      { useGemini := true, useFinancialBert := true, useCryptoBert := true
        useNewsAnalysis := true, weightingStrategy := "confidence" }
      (Except.error "service unavailable") (Except.error "service unavailable")
      (Except.error "service unavailable") (Except.error "service unavailable") 120 =
      Except.error "No models were able to generate a response" := rfl

/-- C1 amended: MultiModelAIService.generateEnsembleResponse never fails its
caller: when every enabled source fails, it still returns an
EnsembleResponse whose contributions list is exactly one synthetic fallback
contribution carrying the fixed confidence 0.5 and the canned apologetic
message; the MultiModelService variant instead throws in that situation. -/
theorem C1_amended_all_sources_fail_fallback
    (options : EnsembleOptions) (g f c n : Except String ModelResponse)
    (elapsed totalElapsed : ℤ)
    (hg : options.useGemini = true → g.toOption = none)
    (hf : options.useFinancialBert = true → f.toOption = none)
    (hc : options.useCryptoBert = true → c.toOption = none)
    (hn : options.useNewsAnalysis = true → n.toOption = none) :
    (MultiModelAIService.generateEnsembleResponse options g f c n
        elapsed totalElapsed).modelContributions =
      [MultiModelAIService.fallbackResponse elapsed] ∧
    (MultiModelAIService.generateEnsembleResponse options g f c n
        elapsed totalElapsed).finalResponse = MultiModelAIService.fallbackMessage ∧
    (MultiModelAIService.generateEnsembleResponse options g f c n
        elapsed totalElapsed).consensusScore = 0.5 := by
  have hnil := collectResponses_eq_nil hg hf hc hn
  refine ⟨?_, ?_, ?_⟩ <;>
    simp [MultiModelAIService.generateEnsembleResponse, hnil,
      MultiModelAIService.combineEnsemble, MultiModelAIService.fallbackResponse]

/-- C1 witness: the amended statement at a concrete all-enabled call whose
four sources all fail. -/
theorem C1_amended_witness :
    (MultiModelAIService.generateEnsembleResponse
        { useGemini := true, useFinancialBert := true, useCryptoBert := true
          useNewsAnalysis := true, weightingStrategy := some "confidence" }
        (Except.error "down") (Except.error "down") (Except.error "down")
        (Except.error "down") 5 9).modelContributions =
      [MultiModelAIService.fallbackResponse 5] ∧
    (MultiModelAIService.generateEnsembleResponse
        { useGemini := true, useFinancialBert := true, useCryptoBert := true
          useNewsAnalysis := true, weightingStrategy := some "confidence" }
        (Except.error "down") (Except.error "down") (Except.error "down")
        (Except.error "down") 5 9).finalResponse = MultiModelAIService.fallbackMessage ∧
    (MultiModelAIService.generateEnsembleResponse
        { useGemini := true, useFinancialBert := true, useCryptoBert := true
          useNewsAnalysis := true, weightingStrategy := some "confidence" }
        (Except.error "down") (Except.error "down") (Except.error "down")
        (Except.error "down") 5 9).consensusScore = 0.5 :=
  C1_amended_all_sources_fail_fallback _ _ _ _ _ 5 9
    (fun _ => rfl) (fun _ => rfl) (fun _ => rfl) (fun _ => rfl)

/-- C2 counterexample: the MultiModelService variant appends its fixed
disclaimer even when exactly one source succeeded, so the final response is
not that contribution verbatim. -/
theorem C2_counterexample_disclaimer_appended :
    (MultiModelService.generateEnsembleResponse
        { useGemini := true, useFinancialBert := false, useCryptoBert := false
          useNewsAnalysis := false, weightingStrategy := "confidence" }
        (Except.ok soloGeminiMS) (Except.error "x") (Except.error "x")
        (Except.error "x") 7).map (fun r => r.finalResponse) =
      Except.ok ("BTC is consolidating." ++ "\n\nThis is information, not financial advice.") ∧
    ("BTC is consolidating." ++ "\n\nThis is information, not financial advice.") ≠
      soloGeminiMS.response := by
  exact ⟨rfl, by decide⟩

/-- C2 amended: in MultiModelAIService.generateEnsembleResponse, a round that
ends with exactly one successful contribution returns that contribution
verbatim as the final response, with its confidence as the consensus score
and with it as the only contribution; the MultiModelService variant instead
appends its fixed disclaimer even to a single contribution. -/
theorem C2_amended_single_contribution_verbatim
    (options : EnsembleOptions) (g f c n : Except String ModelResponse)
    (elapsed totalElapsed : ℤ) (r : ModelResponse)
    (hone : MultiModelAIService.collectResponses options g f c n = [r]) :
    (MultiModelAIService.generateEnsembleResponse options g f c n
        elapsed totalElapsed).finalResponse = r.data ∧
    (MultiModelAIService.generateEnsembleResponse options g f c n
        elapsed totalElapsed).consensusScore = r.confidence ∧
    (MultiModelAIService.generateEnsembleResponse options g f c n
        elapsed totalElapsed).modelContributions = [r] := by
  refine ⟨?_, ?_, ?_⟩ <;>
    simp [MultiModelAIService.generateEnsembleResponse, hone,
      MultiModelAIService.combineEnsemble]

/-- C2 witness: the amended statement at a concrete Gemini-only call whose
single enabled source succeeds. -/
theorem C2_amended_witness :
    (MultiModelAIService.generateEnsembleResponse
        { useGemini := true, useFinancialBert := false, useCryptoBert := false
          useNewsAnalysis := false, weightingStrategy := some "confidence" }
        (Except.ok soloGemini) (Except.error "x") (Except.error "x")
        (Except.error "x") 5 9).finalResponse = soloGemini.data ∧
    (MultiModelAIService.generateEnsembleResponse
        { useGemini := true, useFinancialBert := false, useCryptoBert := false
          useNewsAnalysis := false, weightingStrategy := some "confidence" }
        (Except.ok soloGemini) (Except.error "x") (Except.error "x")
        (Except.error "x") 5 9).consensusScore = soloGemini.confidence ∧
    (MultiModelAIService.generateEnsembleResponse
        { useGemini := true, useFinancialBert := false, useCryptoBert := false
          useNewsAnalysis := false, weightingStrategy := some "confidence" }
        (Except.ok soloGemini) (Except.error "x") (Except.error "x")
        (Except.error "x") 5 9).modelContributions = [soloGemini] :=
  C2_amended_single_contribution_verbatim _ _ _ _ _ 5 9 soloGemini rfl

/-- C9: whatever subset of sources succeeds and whichever weighting strategy
is chosen, the consensus score of MultiModelAIService.generateEnsembleResponse
lies in the closed unit interval, provided every collected contribution
carries a confidence in that interval; when the returned contribution list is
a single contribution, the consensus score equals its confidence. The
MultiModelService variant returns the mean confidence of its successful
responses as consensus, which obeys the same bounds and the same
single-contribution equation. -/
theorem C9_consensus_score_unit_interval
    (options : EnsembleOptions) (g f c n : Except String ModelResponse)
    (elapsed totalElapsed : ℤ)
    (hconf : ∀ r ∈ MultiModelAIService.collectResponses options g f c n,
      0 ≤ r.confidence ∧ r.confidence ≤ 1)
    (msOptions : MultiModelService.MSOptions)
    (g2 f2 c2 n2 : Except String MultiModelService.MSModelResponse) (t2 : ℤ)
    (mr : MultiModelService.MSModelResponse)
    (mrest : List MultiModelService.MSModelResponse)
    (hms2 : MultiModelService.successfulResponsesOf msOptions g2 f2 c2 n2 = mr :: mrest)
    (hmsconf : ∀ x ∈ mr :: mrest, 0 ≤ x.confidence ∧ x.confidence ≤ 1) :
    ((0 ≤ (MultiModelAIService.generateEnsembleResponse options g f c n
        elapsed totalElapsed).consensusScore ∧
      (MultiModelAIService.generateEnsembleResponse options g f c n
        elapsed totalElapsed).consensusScore ≤ 1) ∧
    (∀ r, (MultiModelAIService.generateEnsembleResponse options g f c n
        elapsed totalElapsed).modelContributions = [r] →
      (MultiModelAIService.generateEnsembleResponse options g f c n
        elapsed totalElapsed).consensusScore = r.confidence)) ∧
    ((MultiModelService.generateEnsembleResponse msOptions g2 f2 c2 n2 t2).map
        (fun res => res.consensusScore) =
      Except.ok (((mr :: mrest).map (fun x => x.confidence)).sum /
        (((mr :: mrest).length : ℚ))) ∧
    (0 ≤ ((mr :: mrest).map (fun x => x.confidence)).sum / (((mr :: mrest).length : ℚ)) ∧
      ((mr :: mrest).map (fun x => x.confidence)).sum / (((mr :: mrest).length : ℚ)) ≤ 1) ∧
    (mrest = [] →
      ((mr :: mrest).map (fun x => x.confidence)).sum / (((mr :: mrest).length : ℚ)) =
        mr.confidence)) := by
  refine ⟨?hA, ?hB, ?hC, ?hD⟩
  case hB =>
    simp [MultiModelService.generateEnsembleResponse, hms2, Except.map]
  case hC =>
    have hn0 : (0 : ℚ) < (((mr :: mrest).length : ℚ)) := by
      have : 0 < (mr :: mrest).length := by simp
      exact_mod_cast this
    have hsum0 : 0 ≤ ((mr :: mrest).map (fun x => x.confidence)).sum :=
      rat_list_sum_nonneg (by
        intro x hx
        rcases List.mem_map.mp hx with ⟨r, hr, hrx⟩
        exact hrx ▸ (hmsconf r hr).1)
    have hsum1 : ((mr :: mrest).map (fun x => x.confidence)).sum ≤
        (((mr :: mrest).length : ℚ)) := by
      have := rat_list_sum_le_length (l := (mr :: mrest).map (fun x => x.confidence)) (by
        intro x hx
        rcases List.mem_map.mp hx with ⟨r, hr, hrx⟩
        exact hrx ▸ (hmsconf r hr).2)
      simpa using this
    exact ⟨div_nonneg hsum0 hn0.le, by rw [div_le_one hn0]; exact hsum1⟩
  case hD =>
    intro hrest
    subst hrest
    simp
  case hA =>
  by_cases hL : MultiModelAIService.collectResponses options g f c n = []
  · constructor
    · have hb := combineEnsemble_score_bounds options.weightingStrategy
        [MultiModelAIService.fallbackResponse elapsed] (by simp)
        (by
          intro r hr
          simp at hr
          subst hr
          norm_num [MultiModelAIService.fallbackResponse])
      simpa [MultiModelAIService.generateEnsembleResponse, hL] using hb
    · intro r hr
      have hr2 : MultiModelAIService.fallbackResponse elapsed = r := by
        simpa [MultiModelAIService.generateEnsembleResponse, hL] using hr
      simp [MultiModelAIService.generateEnsembleResponse, hL,
        MultiModelAIService.combineEnsemble, ← hr2]
  · constructor
    · have hb := combineEnsemble_score_bounds options.weightingStrategy
        (MultiModelAIService.collectResponses options g f c n) hL hconf
      simpa [MultiModelAIService.generateEnsembleResponse, hL] using hb
    · intro r hr
      have hr2 : MultiModelAIService.collectResponses options g f c n = [r] := by
        simpa [MultiModelAIService.generateEnsembleResponse, hL] using hr
      simp [MultiModelAIService.generateEnsembleResponse, hL, hr2,
        MultiModelAIService.combineEnsemble]

/-- C9 witness: the bound at a concrete call with two successful sources of
confidences 0.9 and 0.6 under the confidence strategy. -/
theorem C9_witness :
    (0 ≤ (MultiModelAIService.generateEnsembleResponse
        { useGemini := true, useFinancialBert := true, useCryptoBert := false
          useNewsAnalysis := false, weightingStrategy := some "confidence" }
        (Except.ok soloGemini)
        (Except.ok { source := "FinancialBERT", confidence := 0.6
                     data := "Sentiment is mixed.", processingTime := 4 })
        (Except.error "x") (Except.error "x") 5 9).consensusScore ∧
      (MultiModelAIService.generateEnsembleResponse
        { useGemini := true, useFinancialBert := true, useCryptoBert := false
          useNewsAnalysis := false, weightingStrategy := some "confidence" }
        (Except.ok soloGemini)
        (Except.ok { source := "FinancialBERT", confidence := 0.6
                     data := "Sentiment is mixed.", processingTime := 4 })
        (Except.error "x") (Except.error "x") 5 9).consensusScore ≤ 1) ∧
    (MultiModelService.generateEnsembleResponse
        { useGemini := true, useFinancialBert := false, useCryptoBert := false
          useNewsAnalysis := false, weightingStrategy := "confidence" }
        (Except.ok soloGeminiMS) (Except.error "x") (Except.error "x")
        (Except.error "x") 7).map (fun res => res.consensusScore) =
      Except.ok ((([soloGeminiMS].map (fun x => x.confidence)).sum) /
        ((([soloGeminiMS] : List MultiModelService.MSModelResponse).length : ℚ))) ∧
    ((([soloGeminiMS].map (fun x => x.confidence)).sum) /
        ((([soloGeminiMS] : List MultiModelService.MSModelResponse).length : ℚ)) =
      soloGeminiMS.confidence) := by
  have h := C9_consensus_score_unit_interval
    { useGemini := true, useFinancialBert := true, useCryptoBert := false
      useNewsAnalysis := false, weightingStrategy := some "confidence" }
    (Except.ok soloGemini)
    (Except.ok { source := "FinancialBERT", confidence := 0.6
                 data := "Sentiment is mixed.", processingTime := 4 })
    (Except.error "x") (Except.error "x") 5 9
    (by
      intro r hr
      simp [MultiModelAIService.collectResponses, Except.toOption] at hr
      rcases hr with hr | hr <;> subst hr <;> norm_num [soloGemini])
    { useGemini := true, useFinancialBert := false, useCryptoBert := false
      useNewsAnalysis := false, weightingStrategy := "confidence" }
    (Except.ok soloGeminiMS) (Except.error "x") (Except.error "x")
    (Except.error "x") 7 soloGeminiMS [] rfl
    (by
      intro x hx
      simp at hx
      subst hx
      norm_num [soloGeminiMS])
  exact ⟨h.1.1, h.2.1, h.2.2.2 rfl⟩

/-! ## Resilient fetch

Embeds the two fetchWithTimeout helpers of src/server/api-clients.ts. One
attempt is the whole try block of one loop iteration: fetching, the ok check
and the JSON content-type check; its outcome is given by the attempt oracle,
Except.ok carrying the payload and Except.error the message of whatever the
block threw. The jitter oracle gives the value of Math.random times 1000
drawn before each generic backoff. -/

/-- When every attempt fails, the first retry loop makes exactly one fetch
attempt per unit of fuel and ends in an error. -/
lemma fetchGo_all_fail (hostname : String) (attempt : ℕ → Except String String)
    (jitter : ℕ → ℚ) (retries : ℕ)
    (hfail : ∀ i, i < retries → (attempt i).toOption = none) :
    ∀ fuel i url, i + fuel = retries →
      (fetchGo hostname attempt jitter retries fuel i url).attemptsMade = fuel ∧
      ∃ e, (fetchGo hostname attempt jitter retries fuel i url).result = Except.error e := by
  intro fuel
  induction fuel with
  | zero =>
    intro i url _
    exact ⟨rfl, "All fetch attempts failed", rfl⟩
  | succ fuel ih =>
    intro i url hinv
    have hi : i < retries := by omega
    have hopt := hfail i hi
    cases ha : attempt i with
    | ok p =>
      rw [ha] at hopt
      simp [Except.toOption] at hopt
    | error m =>
      simp only [fetchGo, ha]
      split
      · next hdns =>
        obtain ⟨h1, e, h2⟩ := ih (i + 1)
          (replaceFirst url hostname (alternativeUrls.getD (i % alternativeUrls.length) ""))
          (by omega)
        exact ⟨by simpa using h1, e, by simpa using h2⟩
      · next hdns =>
        split
        · next hrate =>
          obtain ⟨h1, e, h2⟩ := ih (i + 1) url (by omega)
          exact ⟨by simpa using h1, e, by simpa using h2⟩
        · next hrate =>
          split
          · next hlast =>
            have hfuel : fuel = 0 := by omega
            subst hfuel
            split
            · next htmo =>
              exact ⟨rfl, _, rfl⟩
            · next htmo =>
              exact ⟨rfl, _, rfl⟩
          · next hlast =>
            obtain ⟨h1, e, h2⟩ := ih (i + 1) url (by omega)
            exact ⟨by simpa using h1, e, by simpa using h2⟩

/-- When every attempt fails, the second retry loop also makes exactly one
fetch attempt per unit of fuel and ends in an error. -/
lemma fetchGoV2_all_fail (attempt : ℕ → Except String String)
    (jitter : ℕ → ℚ) (retries : ℕ)
    (hfail : ∀ i, i < retries → (attempt i).toOption = none) :
    ∀ fuel i url, i + fuel = retries →
      (fetchGoV2 attempt jitter retries fuel i url).attemptsMade = fuel ∧
      ∃ e, (fetchGoV2 attempt jitter retries fuel i url).result = Except.error e := by
  intro fuel
  induction fuel with
  | zero =>
    intro i url _
    exact ⟨rfl, "All fetch attempts failed", rfl⟩
  | succ fuel ih =>
    intro i url hinv
    have hi : i < retries := by omega
    have hopt := hfail i hi
    cases ha : attempt i with
    | ok p =>
      rw [ha] at hopt
      simp [Except.toOption] at hopt
    | error m =>
      simp only [fetchGoV2, ha]
      split
      · next hlast =>
        have hfuel : fuel = 0 := by omega
        subst hfuel
        split
        · next htmo =>
          exact ⟨rfl, _, rfl⟩
        · next htmo =>
          exact ⟨rfl, _, rfl⟩
      · next hlast =>
        obtain ⟨h1, e, h2⟩ := ih (i + 1) url (by omega)
        exact ⟨by simpa using h1, e, by simpa using h2⟩

/-- C5: against an endpoint on which every attempt fails, each of the two
fetchWithTimeout helpers performs exactly retries fetch attempts and then
terminates with an error; neither retries indefinitely. -/
theorem C5_bounded_retries (url hostname : String)
    (attempt : ℕ → Except String String) (jitter : ℕ → ℚ) (retries : ℕ)
    (hretries : 1 ≤ retries)
    (hfail : ∀ i, i < retries → (attempt i).toOption = none) :
    ((fetchWithTimeout url hostname attempt jitter retries).attemptsMade = retries ∧
      ∃ e, (fetchWithTimeout url hostname attempt jitter retries).result =
        Except.error e) ∧
    ((fetchWithTimeoutV2 url attempt jitter retries).attemptsMade = retries ∧
      ∃ e, (fetchWithTimeoutV2 url attempt jitter retries).result = Except.error e) :=
  ⟨fetchGo_all_fail hostname attempt jitter retries hfail retries 0 url (by omega),
   fetchGoV2_all_fail attempt jitter retries hfail retries 0 url (by omega)⟩

/-- C5 witness: three attempts against a permanently failing endpoint. -/
theorem C5_bounded_retries_witness :
    ((fetchWithTimeout "https://api.example.com/data" "api.example.com"
        (fun _ => Except.error "boom") (fun _ => 500) 3).attemptsMade = 3 ∧
      ∃ e, (fetchWithTimeout "https://api.example.com/data" "api.example.com"
        (fun _ => Except.error "boom") (fun _ => 500) 3).result = Except.error e) ∧
    ((fetchWithTimeoutV2 "https://api.example.com/data"
        (fun _ => Except.error "boom") (fun _ => 500) 3).attemptsMade = 3 ∧
      ∃ e, (fetchWithTimeoutV2 "https://api.example.com/data"
        (fun _ => Except.error "boom") (fun _ => 500) 3).result = Except.error e) :=
  C5_bounded_retries "https://api.example.com/data" "api.example.com"
    (fun _ => Except.error "boom") (fun _ => 500) 3 (by decide)
    (fun _ _ => rfl)

/-- C6 counterexample: against an endpoint that always answers HTTP 429 with
three retries, the first fetchWithTimeout performs three attempts but fails
with the generic all-attempts-failed error: the rate-limited branch backs off
and continues even on the final attempt, so the final error carries no trace
of the rate limit. -/
theorem C6_counterexample_rate_limit_generic_error :
    (fetchWithTimeout "https://api.example.com/data" "api.example.com"
        (fun _ => Except.error "HTTP 429: Too Many Requests") (fun _ => 0) 3).result =
      Except.error "All fetch attempts failed" ∧
    (fetchWithTimeout "https://api.example.com/data" "api.example.com"
        (fun _ => Except.error "HTTP 429: Too Many Requests") (fun _ => 0) 3).attemptsMade = 3 ∧
    includesStr "All fetch attempts failed" "429" = false := by
  refine ⟨?_, ?_, ?_⟩ <;> decide

/-- When every attempt fails and the final failure message mentions neither
429 nor 503 nor a timeout, the first retry loop ends with the service error
that carries that final message. -/
lemma fetchGo_service_error (hostname : String) (attempt : ℕ → Except String String)
    (jitter : ℕ → ℚ) (retries : ℕ) (msg : ℕ → String)
    (hfail : ∀ i, i < retries → attempt i = Except.error (msg i))
    (h429 : includesStr (msg (retries - 1)) "429" = false)
    (h503 : includesStr (msg (retries - 1)) "503" = false)
    (htmo : includesStr (msg (retries - 1)) "timeout" = false) :
    ∀ fuel i url, i + fuel = retries → 1 ≤ fuel →
      (fetchGo hostname attempt jitter retries fuel i url).result =
        Except.error ("Service error: " ++ msg (retries - 1)) := by
  intro fuel
  induction fuel with
  | zero =>
    intro i url _ hge
    omega
  | succ fuel ih =>
    intro i url hinv _
    have hi : i < retries := by omega
    have ha := hfail i hi
    simp only [fetchGo, ha]
    rcases Nat.eq_or_lt_of_le (Nat.succ_le_of_lt hi) with hlast | hmid
    · -- final attempt: i = retries - 1 and fuel = 0
      have hieq : i = retries - 1 := by omega
      have hdec : decide (i < retries - 1) = false := by
        simp
        omega
      rw [hdec]
      simp only [Bool.and_false, Bool.false_eq_true, if_false]
      rw [hieq, if_neg (by simp [h429, h503]), if_pos rfl, if_neg (by simp [htmo])]
    · -- earlier attempt: every branch recurses
      have hne : ¬ i = retries - 1 := by omega
      have hrec : ∀ u, (fetchGo hostname attempt jitter retries fuel (i + 1) u).result =
          Except.error ("Service error: " ++ msg (retries - 1)) :=
        fun u => ih (i + 1) u (by omega) (by omega)
      split
      all_goals try split
      all_goals try split
      all_goals first
        | simpa using hrec _
        | exact absurd ‹i = retries - 1› hne

/-- C6 amended: a fetchWithTimeout call that exhausts its retries carries the
last concrete failure cause only when the final failure is not classified as
rate limiting: if the last message mentions neither 429 nor 503 nor a
timeout, the call fails with the service error wrapping that message after
exactly retries attempts, while a persistently rate-limited endpoint instead
ends in the generic all-attempts-failed error, as the counterexample shows. -/
theorem C6_amended_last_cause (url hostname : String)
    (attempt : ℕ → Except String String) (jitter : ℕ → ℚ)
    (retries : ℕ) (msg : ℕ → String)
    (hretries : 1 ≤ retries)
    (hfail : ∀ i, i < retries → attempt i = Except.error (msg i))
    (h429 : includesStr (msg (retries - 1)) "429" = false)
    (h503 : includesStr (msg (retries - 1)) "503" = false)
    (htmo : includesStr (msg (retries - 1)) "timeout" = false) :
    (fetchWithTimeout url hostname attempt jitter retries).result =
      Except.error ("Service error: " ++ msg (retries - 1)) ∧
    (fetchWithTimeout url hostname attempt jitter retries).attemptsMade = retries := by
  refine ⟨fetchGo_service_error hostname attempt jitter retries msg hfail h429 h503 htmo
    retries 0 url (by omega) hretries, ?_⟩
  have := fetchGo_all_fail hostname attempt jitter retries
    (fun i hi => by rw [hfail i hi]; rfl) retries 0 url (by omega)
  exact this.1

/-- C6 witness: the amended statement against an endpoint that always fails
with a bare connection-reset message. -/
theorem C6_amended_witness :
    (fetchWithTimeout "https://api.example.com/data" "api.example.com"
        (fun _ => Except.error "ECONNRESET") (fun _ => 0) 3).result =
      Except.error ("Service error: " ++ "ECONNRESET") ∧
    (fetchWithTimeout "https://api.example.com/data" "api.example.com"
        (fun _ => Except.error "ECONNRESET") (fun _ => 0) 3).attemptsMade = 3 :=
  C6_amended_last_cause "https://api.example.com/data" "api.example.com"
    (fun _ => Except.error "ECONNRESET") (fun _ => 0) 3 (fun _ => "ECONNRESET")
    (by decide) (fun _ _ => rfl) (by decide) (by decide) (by decide)

/-- Prepending the image of the start index shifts a mapped range by one. -/
lemma range_map_shift (f : ℕ → ℚ) (n i : ℕ) :
    f i :: (List.range n).map (fun k => f (i + 1 + k)) =
      (List.range (n + 1)).map (fun k => f (i + k)) := by
  rw [List.range_succ_eq_map, List.map_cons, List.map_map]
  have h1 : f (i + 0) = f i := by rw [Nat.add_zero]
  have h2 : ((fun k => f (i + k)) ∘ Nat.succ) = fun k => f (i + 1 + k) := by
    funext k
    simp only [Function.comp]
    congr 1
    omega
  rw [h1, h2]

/-- When every attempt fails and no message triggers the DNS or rate-limit
branches, the delays of the first retry loop are exactly the jittered generic
backoffs of the attempt indices walked through. -/
lemma fetchGo_generic_delays (hostname : String) (attempt : ℕ → Except String String)
    (jitter : ℕ → ℚ) (retries : ℕ) (msg : ℕ → String)
    (hfail : ∀ i, i < retries → attempt i = Except.error (msg i))
    (hclean : ∀ i, i < retries →
      includesStr (msg i) "ENOTFOUND" = false ∧
      includesStr (msg i) "getaddrinfo" = false ∧
      includesStr (msg i) "429" = false ∧
      includesStr (msg i) "503" = false) :
    ∀ fuel i url, i + fuel = retries → 1 ≤ fuel →
      (fetchGo hostname attempt jitter retries fuel i url).delays =
        (List.range (fuel - 1)).map (fun k => (backoffBase (i + k) : ℚ) + jitter (i + k)) := by
  intro fuel
  induction fuel with
  | zero =>
    intro i url _ hge
    omega
  | succ fuel ih =>
    intro i url hinv _
    have hi : i < retries := by omega
    have ha := hfail i hi
    obtain ⟨hdns1, hdns2, h429, h503⟩ := hclean i hi
    simp only [fetchGo, ha]
    rw [if_neg (by simp [hdns1, hdns2]), if_neg (by simp [h429, h503])]
    rcases Nat.eq_or_lt_of_le (Nat.succ_le_of_lt hi) with hlast | hmid
    · have hieq : i = retries - 1 := by omega
      have hfuel : fuel = 0 := by omega
      subst hfuel
      rw [if_pos hieq]
      split
      · next htmo => rfl
      · next htmo => rfl
    · have hne : ¬ i = retries - 1 := by omega
      rw [if_neg hne]
      have hrec := ih (i + 1) url (by omega) (by omega)
      simp only [hrec]
      rw [show (fuel + 1 - 1) = (fuel - 1) + 1 by omega]
      exact range_map_shift (fun t => (backoffBase t : ℚ) + jitter t) (fuel - 1) i

/-- C8: within one call of the first fetchWithTimeout, the backoff bases grow
monotonically with the attempt index, for the generic branch as well as for
the rate-limited branch, and in a run whose failures all take the generic
branch the delay awaited after attempt i is exactly the capped base for i
plus the jitter drawn for i. The jitter term models Math.random times 1000,
hence is nonnegative and bounded by 1000 in the source. -/
theorem C8_backoff_growth :
    (∀ i j : ℕ, i ≤ j →
      backoffBase i ≤ backoffBase j ∧ backoffRateLimit i ≤ backoffRateLimit j) ∧
    (∀ (url hostname : String) (attempt : ℕ → Except String String)
        (jitter : ℕ → ℚ) (retries : ℕ) (msg : ℕ → String),
      1 ≤ retries →
      (∀ i, i < retries → attempt i = Except.error (msg i)) →
      (∀ i, i < retries →
        includesStr (msg i) "ENOTFOUND" = false ∧
        includesStr (msg i) "getaddrinfo" = false ∧
        includesStr (msg i) "429" = false ∧
        includesStr (msg i) "503" = false) →
      (fetchWithTimeout url hostname attempt jitter retries).delays =
        (List.range (retries - 1)).map (fun k => (backoffBase k : ℚ) + jitter k)) := by
  constructor
  · intro i j hij
    constructor
    · exact min_le_min (Nat.mul_le_mul_right 2000
        (Nat.pow_le_pow_right (by norm_num) hij)) (le_refl _)
    · exact min_le_min (Nat.mul_le_mul_left 1000
        (Nat.pow_le_pow_right (by norm_num) hij)) (le_refl _)
  · intro url hostname attempt jitter retries msg hretries hfail hclean
    have := fetchGo_generic_delays hostname attempt jitter retries msg hfail hclean
      retries 0 url (by omega) hretries
    simpa using this

/-- C8 witness: monotonicity at indices one and two, and the concrete delay
list of a three-retry run over a permanently failing endpoint with constant
jitter 500. -/
theorem C8_backoff_growth_witness :
    (backoffBase 1 ≤ backoffBase 2 ∧ backoffRateLimit 1 ≤ backoffRateLimit 2) ∧
    (fetchWithTimeout "https://api.example.com/data" "api.example.com"
        (fun _ => Except.error "ECONNRESET") (fun _ => 500) 3).delays =
      (List.range 2).map (fun k => (backoffBase k : ℚ) + 500) := by
  constructor
  · exact C8_backoff_growth.1 1 2 (by decide)
  · exact C8_backoff_growth.2 "https://api.example.com/data" "api.example.com"
      (fun _ => Except.error "ECONNRESET") (fun _ => 500) 3 (fun _ => "ECONNRESET")
      (by decide) (fun _ _ => rfl)
      (fun _ _ => ⟨rfl, rfl, rfl, rfl⟩)

/-! ## Source adapters

Embeds the adapter layer of src/server/api-clients.ts. Each adapter method is
a function of the outcome of its try block: Except.ok carries the value the
successful path computed, Except.error the message of whatever the block
threw. The claims concern only the catch-side policy, which is translated
exactly. -/

/-- C3 counterexample: the market-statistics adapter returns, for a
production call whose source failed on all retries, exactly the same untagged
value that a development-mode call returns without any failure, so no reading
of the result can tag the former as fallback and the latter as live: the
degraded result is presented exactly as live data would be. -/
theorem C3_counterexample_fallback_indistinguishable :
    BinanceClient.getMarketStats "production" (Except.error "ENOTFOUND api.binance.com") =
      BinanceClient.getMarketStats "development"
        (Except.ok { totalMarketCap := "$9.9T", totalVolume24h := "$1.0B"
                     btcDominance := "40.0%", fearGreedIndex := 10 }) ∧
    ¬ ∃ f : MarketStats → Origin,
        f (BinanceClient.getMarketStats "production"
            (Except.error "ENOTFOUND api.binance.com")) = Origin.fallback ∧
        f (BinanceClient.getMarketStats "development"
            (Except.ok { totalMarketCap := "$9.9T", totalVolume24h := "$1.0B"
                         btcDominance := "40.0%", fearGreedIndex := 10 })) = Origin.live := by
  refine ⟨rfl, ?_⟩
  rintro ⟨f, h1, h2⟩
  exact absurd (h1.symm.trans h2) (by decide)

/-- C3 amended: when the primary source fails on all retries, the Binance
adapter operations return the configured static fallback values exactly; the
results carry no origin tag, and for the market statistics the fallback value
coincides with the development-mode sample, so degraded data is not
distinguishable from live data by the caller. -/
theorem C3_amended_static_fallback_untagged (e : String) :
    BinanceClient.getTopCryptocurrencies (Except.error e) =
      BinanceClient.fallbackTopCryptocurrencies ∧
    BinanceClient.getMarketStats "production" (Except.error e) =
      BinanceClient.fallbackMarketStats ∧
    BinanceClient.fallbackMarketStats = BinanceClient.sampleMarketStats :=
  ⟨rfl, rfl, rfl⟩

/-- C7 counterexample: the news adapter and the sentiment adapter fail their
callers on persistent external failure instead of returning a fallback value:
the news adapter rethrows its fixed failed-to-fetch error and the sentiment
adapter rethrows the underlying error unchanged. -/
theorem C7_counterexample_adapters_throw :
    NewsClient.getCryptoNews (Except.error "ECONNREFUSED") =
      Except.error "Failed to fetch news data" ∧
    SentimentClient.analyzeSentiment (Except.error "model unavailable") =
      Except.error "model unavailable" :=
  ⟨rfl, rfl⟩

/-- C7 amended: on persistent external failure the Binance adapter operations
return their static fallback values and never fail their caller, while the
news and sentiment adapters propagate the failure as an error; a missing
required credential is rejected at startup by assertApiKey. -/
theorem C7_amended_adapter_failure_policy (e : String) :
    BinanceClient.getTopCryptocurrencies (Except.error e) =
      BinanceClient.fallbackTopCryptocurrencies ∧
    BinanceClient.getMarketStats "production" (Except.error e) =
      BinanceClient.fallbackMarketStats ∧
    NewsClient.getCryptoNews (Except.error e) = Except.error "Failed to fetch news data" ∧
    SentimentClient.analyzeSentiment (Except.error e) = Except.error e ∧
    assertApiKey "NEWS_API_KEY" none =
      Except.error "Environment variable NEWS_API_KEY is missing or invalid." :=
  ⟨rfl, rfl, rfl, rfl, rfl⟩

/-- C10: the shared calculateOverallSentiment applied to an empty verdict list
returns the neutral label with confidence 0.5 and an all-zero breakdown, with
no division performed. -/
theorem C10_empty_verdicts_neutral :
    SentimentUtils.calculateOverallSentiment [] =
      { sentiment := SentimentLabel.neutral
        confidence := 0.5
        breakdown :=
          { positive := 0, negative := 0, neutral := 0, total := 0
            percentages := { positive := 0, negative := 0, neutral := 0 }
            averageConfidence := 0 } } := rfl
